import Mathlib

/-!
Shallow embedding of the device connectivity and lifecycle core of the
four firmware sketches (ESP32 smart light, ESP32 sensor node, ESP8266
switch, Arduino Uno gateway).  Pure functions mirror the source; the
external collaborators (WiFi/Ethernet transport, ArduinoJson parsing,
the HTTP OTA transport, sensor drivers) enter as explicit parameters,
and the EEPROM is modelled as the byte record the firmware writes.
Machine integers: C `int` is `Int`, `uint8_t` conversion is an explicit
`% 256`, and the `unsigned long` millisecond counter is `Nat` with
explicit `% 2^32` arithmetic.
-/

/-- The modulus of the platform's 32-bit `unsigned long` tick counter. -/
def UINT32_MOD : Nat := 4294967296

/-- Wraparound-safe unsigned 32-bit subtraction `a - b`, as performed by
C on `unsigned long` operands: both are reduced mod 2^32 and the
difference wraps. -/
def usub32 (a b : Nat) : Nat :=
  (a % UINT32_MOD + (UINT32_MOD - b % UINT32_MOD)) % UINT32_MOD

/-- One periodic-task check from the firmware loops:
`if (now - last > interval) then fire and set last = now`, with the
subtraction performed on `unsigned long`.  Returns whether the task
fired and the new `last_fire_time`. -/
def schedTick (interval lastFire now : Nat) : Bool × Nat :=
  if interval < usub32 now lastFire then (true, now) else (false, lastFire)

/-- The C++ implicit conversion of an `int` to `uint8_t`, as happens at
each `EEPROM.write(offset, value)` call site: reduction mod 256 into
the range 0..255. -/
def byteOfInt (v : Int) : Nat := (v % 256).toNat

/-- A last-will registration passed inside a `PubSubClient::connect`
call: topic, payload, delivery QoS, retained flag. -/
structure MqttWill where
  topic : String
  message : String
  qos : Nat
  retained : Bool
deriving DecidableEq

/-- The argument list of one `mqttClient.connect(...)` call, as issued
by a firmware's `connectToMQTT`.  When `will` is `some w`, the will is
part of the connect call itself, hence registered before the call
completes. -/
structure MqttConnectArgs where
  clientId : String
  user : String
  password : String
  will : Option MqttWill
deriving DecidableEq

/-- The last-will payload string built in the WiFi firmwares'
`connectToMQTT` (the JSON text reading online colon false). -/
def offlineWillMessage : String := "\x7b\"online\":false\x7d"

/-- The fields any of the four firmwares' handlers read from a parsed
ArduinoJson document.  A field absent from the message reads as
ArduinoJson's null coercion (`false`, `0`, the empty string), matching
the `doc[key]` casts in the source. -/
structure JsonDoc where
  command : String := ""
  power : Bool := false
  brightness : Int := 0
  r : Int := 0
  g : Int := 0
  b : Int := 0
  action : String := ""
  url : String := ""
deriving DecidableEq

namespace SmartLight

/-- `struct DeviceState` of the ESP32 smart light, with the source's
member initializers as defaults. -/
structure DeviceState where
  power : Bool := false
  brightness : Int := 100
  color_r : Int := 255
  color_g : Int := 255
  color_b : Int := 255
  online : Bool := false
  lastHeartbeat : Nat := 0
  lastStateUpdate : Nat := 0
deriving DecidableEq

/-- Topic construction of `setupTopics`. -/
def TOPIC_BASE (deviceId : String) : String :=
  "homeautomation/devices/" ++ deviceId

def TOPIC_STATUS (deviceId : String) : String := TOPIC_BASE deviceId ++ "/status"

def TOPIC_STATE (deviceId : String) : String := TOPIC_BASE deviceId ++ "/state"

def TOPIC_ONLINE (deviceId : String) : String := TOPIC_BASE deviceId ++ "/online"

def TOPIC_COMMAND (deviceId : String) : String := TOPIC_BASE deviceId ++ "/command"

def TOPIC_OTA (deviceId : String) : String := TOPIC_BASE deviceId ++ "/ota"

/-- The argument list of the smart light's `mqttClient.connect` call:
client identity, credentials, and the last-will (online topic, QoS 1,
retained, offline payload) all passed in the one connect call. -/
def mqttConnectArgs (deviceId : String) : MqttConnectArgs :=
  { clientId := deviceId, user := "", password := "",
    will := some { topic := TOPIC_ONLINE deviceId, message := offlineWillMessage,
                   qos := 1, retained := true } }

/-- The five-byte persisted record written by `saveStateToEEPROM`
(offsets 0 through 4). -/
structure EEPROMRecord where
  b0 : Nat
  b1 : Nat
  b2 : Nat
  b3 : Nat
  b4 : Nat
deriving DecidableEq

/-- `saveStateToEEPROM`: `EEPROM.write` of power, brightness and the
three color channels followed by `EEPROM.commit()`; each `int` value
undergoes the `uint8_t` conversion at the write. -/
def saveStateToEEPROM (st : DeviceState) : EEPROMRecord :=
  { b0 := if st.power then 1 else 0
    b1 := byteOfInt st.brightness
    b2 := byteOfInt st.color_r
    b3 := byteOfInt st.color_g
    b4 := byteOfInt st.color_b }

/-- `loadStateFromEEPROM`, applied to the in-memory state `st` (at boot
the freshly default-initialized struct): reads the five bytes back into
the `int` fields and applies the source's post-load clamps. -/
def loadStateFromEEPROM (rec : EEPROMRecord) (st : DeviceState) : DeviceState :=
  let st := { st with
    power := rec.b0 == 1
    brightness := (rec.b1 : Int)
    color_r := (rec.b2 : Int)
    color_g := (rec.b3 : Int)
    color_b := (rec.b4 : Int) }
  let st := if st.brightness > 100 then { st with brightness := 100 } else st
  let st := if st.color_r > 255 then { st with color_r := 255 } else st
  let st := if st.color_g > 255 then { st with color_g := 255 } else st
  let st := if st.color_b > 255 then { st with color_b := 255 } else st
  st

/-- One MQTT publish call issued by a smart-light handler. -/
inductive Publication where
  | statusSnapshot : Publication
  | stateUpdate (st : DeviceState) : Publication
  | onlineStatus (b : Bool) : Publication
  | otaStatus (status : String) (progress : Option Nat) (error : Option String) : Publication
  | otaCheck : Publication
deriving DecidableEq

/-- The observable effects of one `handleCommand` run: the state after
handling, the publish calls issued, the EEPROM record written and
committed by the trailing `saveStateToEEPROM()` (none when that call
is never reached), and whether `ESP.restart()` was performed. -/
structure CmdResult where
  state : DeviceState
  pubs : List Publication
  saved : Option EEPROMRecord
  restarted : Bool
deriving DecidableEq

/-- `handleCommand` of the ESP32 smart light: the if/else ladder on
`doc["command"]`.  Every branch falls through to the trailing
`saveStateToEEPROM()` call, except `restart`, whose `ESP.restart()`
never returns. -/
def handleCommand (doc : JsonDoc) (st : DeviceState) : CmdResult :=
  if doc.command = "set_power" then
    let st := { st with power := doc.power }
    { state := st, pubs := [Publication.stateUpdate st],
      saved := some (saveStateToEEPROM st), restarted := false }
  else if doc.command = "set_brightness" then
    let st := { st with brightness := doc.brightness }
    let st := if st.brightness < 0 then { st with brightness := 0 } else st
    let st := if st.brightness > 100 then { st with brightness := 100 } else st
    { state := st, pubs := [Publication.stateUpdate st],
      saved := some (saveStateToEEPROM st), restarted := false }
  else if doc.command = "set_color" then
    let st := { st with color_r := doc.r, color_g := doc.g, color_b := doc.b }
    { state := st, pubs := [Publication.stateUpdate st],
      saved := some (saveStateToEEPROM st), restarted := false }
  else if doc.command = "toggle" then
    let st := { st with power := !st.power }
    { state := st, pubs := [Publication.stateUpdate st],
      saved := some (saveStateToEEPROM st), restarted := false }
  else if doc.command = "get_status" then
    { state := st, pubs := [Publication.statusSnapshot, Publication.stateUpdate st],
      saved := some (saveStateToEEPROM st), restarted := false }
  else if doc.command = "restart" then
    { state := st, pubs := [Publication.onlineStatus false],
      saved := none, restarted := true }
  else
    { state := st, pubs := [],
      saved := some (saveStateToEEPROM st), restarted := false }

/-- The smart light's OTA globals (`otaInProgress`, `otaUrl`) together
with the device state. -/
structure SysState where
  device : DeviceState := {}
  otaInProgress : Bool := false
  otaUrl : String := ""
deriving DecidableEq

/-- The observable effects of one `handleOTACommand` run. -/
structure OtaCmdResult where
  sys : SysState
  pubs : List Publication
deriving DecidableEq

/-- `handleOTACommand`: on action `update` it stores the URL and raises
`otaInProgress` unconditionally (the source performs no check of a job
already in progress); on `check` it publishes the ready_for_update
response and changes nothing. -/
def handleOTACommand (doc : JsonDoc) (sys : SysState) : OtaCmdResult :=
  if doc.action = "update" then
    { sys := { sys with otaUrl := doc.url, otaInProgress := true }, pubs := [] }
  else if doc.action = "check" then
    { sys := sys, pubs := [Publication.otaCheck] }
  else
    { sys := sys, pubs := [] }

/-- Outcome classification of one `mqttCallback` run, exactly as
observable in the source: a JSON parse failure is logged and dropped;
otherwise the document is dispatched by exact topic match, or ignored.
The source has no payload-size branch and no oversize outcome. -/
inductive CbOutcome where
  | parseFailed (err : String)
  | dispatched
  | ignoredTopic
deriving DecidableEq

/-- The observable effects of one `mqttCallback` run. -/
structure CbResult where
  sys : SysState
  pubs : List Publication
  saved : Option EEPROMRecord
  restarted : Bool
  outcome : CbOutcome
deriving DecidableEq

/-- `mqttCallback` of the smart light, parameterized by the external
ArduinoJson parse capability `parse` (`deserializeJson` into the fixed
`StaticJsonDocument` of 512 bytes; the library is an external
collaborator).  The callback rebuilds the message string from the
payload bytes and immediately attempts the parse: the source contains
no size check on the payload before `deserializeJson`. -/
def mqttCallback (parse : String → Except String JsonDoc)
    (deviceId topic message : String) (sys : SysState) : CbResult :=
  match parse message with
  | Except.error e =>
      { sys := sys, pubs := [], saved := none, restarted := false,
        outcome := CbOutcome.parseFailed e }
  | Except.ok doc =>
      if topic = TOPIC_COMMAND deviceId then
        let r := handleCommand doc sys.device
        { sys := { sys with device := r.state }, pubs := r.pubs,
          saved := r.saved, restarted := r.restarted,
          outcome := CbOutcome.dispatched }
      else if topic = TOPIC_OTA deviceId then
        let r := handleOTACommand doc sys
        { sys := r.sys, pubs := r.pubs, saved := none, restarted := false,
          outcome := CbOutcome.dispatched }
      else
        { sys := sys, pubs := [], saved := none, restarted := false,
          outcome := CbOutcome.ignoredTopic }

/-- The three outcomes of the external HTTP OTA transport capability
(`httpUpdate.update`). -/
inductive HttpUpdateResult where
  | failed (err : String)
  | noUpdates
  | ok
deriving DecidableEq

/-- The observable effects of one `performOTAUpdate` run. -/
structure OtaRunResult where
  sys : SysState
  pubs : List Publication
  restarted : Bool
  delayedBeforeRestart : Bool
deriving DecidableEq

/-- `performOTAUpdate`, parameterized by the transport outcome `ret`.
With an empty URL it only clears the in-progress flag.  Otherwise it
publishes one `updating` status with progress 0, runs the transfer,
publishes exactly one terminal status (carrying the transport's error
string when the transfer failed), clears the job, and performs the
2-second delay followed by `ESP.restart()` only on success. -/
def performOTAUpdate (ret : HttpUpdateResult) (sys : SysState) : OtaRunResult :=
  if sys.otaUrl = "" then
    { sys := { sys with otaInProgress := false }, pubs := [],
      restarted := false, delayedBeforeRestart := false }
  else
    let terminal :=
      match ret with
      | HttpUpdateResult.failed e => Publication.otaStatus "failed" (some 0) (some e)
      | HttpUpdateResult.noUpdates => Publication.otaStatus "no_update" (some 0) none
      | HttpUpdateResult.ok => Publication.otaStatus "success" (some 0) none
    let isOk := match ret with
      | HttpUpdateResult.ok => true
      | _ => false
    { sys := { sys with otaInProgress := false, otaUrl := "" },
      pubs := [Publication.otaStatus "updating" (some 0) none, terminal],
      restarted := isOk, delayedBeforeRestart := isOk }

end SmartLight

namespace SensorNode

/-- Readings delivered by the external sensor drivers for one
`readSensors` call.  The DHT read can fail (`none` models a NaN
return); the BME280 readings are present only when the sensor was
detected at boot.  The numeric carriers stand for the raw driver
values: the command paths of the source only store and publish them
verbatim (the sole arithmetic, the pressure conversion to hPa, is
applied to the driver value at this boundary). -/
structure DriverReadings where
  dhtTemperature : Option Int
  dhtHumidity : Option Int
  bme : Option (Int × Int × Int)
  lightLevel : Int
  motionDetected : Bool
deriving DecidableEq

/-- `struct SensorState` of the ESP32 sensor node, with the source's
member initializers as defaults. -/
structure SensorState where
  temperature : Int := 0
  humidity : Int := 0
  pressure : Int := 0
  light_level : Int := 0
  motion_detected : Bool := false
  online : Bool := false
  lastHeartbeat : Nat := 0
  lastSensorRead : Nat := 0
  lastPublish : Nat := 0
deriving DecidableEq

/-- `readSensors`: the DHT values are stored only when neither is NaN;
when the BME280 is available its readings overwrite temperature and
humidity and set the pressure; light and motion are always stored. -/
def readSensors (rd : DriverReadings) (st : SensorState) : SensorState :=
  let st :=
    match rd.dhtTemperature, rd.dhtHumidity with
    | some t, some h => { st with temperature := t, humidity := h }
    | _, _ => st
  let st :=
    match rd.bme with
    | some (t, h, p) => { st with temperature := t, humidity := h, pressure := p }
    | none => st
  { st with light_level := rd.lightLevel, motion_detected := rd.motionDetected }

/-- One MQTT publish call issued by a sensor-node handler. -/
inductive NPub where
  | sensorData (st : SensorState) : NPub
  | statusSnapshot : NPub
  | onlineStatus (b : Bool) : NPub
deriving DecidableEq

/-- The observable effects of one sensor-node `handleCommand` run. -/
structure NCmdResult where
  state : SensorState
  pubs : List NPub
  restarted : Bool
deriving DecidableEq

/-- `handleCommand` of the sensor node: recognizes `get_sensors`,
`get_status` and `restart`; any other command string takes no branch
at all. -/
def handleCommand (rd : DriverReadings) (doc : JsonDoc) (st : SensorState) :
    NCmdResult :=
  if doc.command = "get_sensors" then
    let st := readSensors rd st
    { state := st, pubs := [NPub.sensorData st], restarted := false }
  else if doc.command = "get_status" then
    { state := st, pubs := [NPub.statusSnapshot], restarted := false }
  else if doc.command = "restart" then
    { state := st, pubs := [NPub.onlineStatus false], restarted := true }
  else
    { state := st, pubs := [], restarted := false }

/-- The argument list of the sensor node's `mqttClient.connect` call:
identical will registration to the smart light. -/
def mqttConnectArgs (deviceId : String) : MqttConnectArgs :=
  { clientId := deviceId, user := "", password := "",
    will := some { topic := SmartLight.TOPIC_ONLINE deviceId,
                   message := offlineWillMessage, qos := 1, retained := true } }

end SensorNode

namespace Switch

/-- `struct SwitchState` of the ESP8266 switch, with the source's
member initializers as defaults. -/
structure SwitchState where
  power : Bool := false
  online : Bool := false
  lastHeartbeat : Nat := 0
  lastStateUpdate : Nat := 0
  lastButtonPress : Nat := 0
deriving DecidableEq

/-- `saveStateToEEPROM` of the switch: one byte at offset 0 (the power
bit) followed by `EEPROM.commit()`. -/
def saveStateToEEPROM (st : SwitchState) : Nat :=
  if st.power then 1 else 0

/-- `loadStateFromEEPROM` of the switch, applied to the in-memory
state. -/
def loadStateFromEEPROM (b0 : Nat) (st : SwitchState) : SwitchState :=
  { st with power := b0 == 1 }

/-- One MQTT publish call issued by a switch handler. -/
inductive WPub where
  | stateUpdate (power : Bool) : WPub
  | statusSnapshot : WPub
  | onlineStatus (b : Bool) : WPub
deriving DecidableEq

/-- The observable effects of one switch `handleCommand` run. -/
structure WCmdResult where
  state : SwitchState
  pubs : List WPub
  saved : Option Nat
  restarted : Bool
deriving DecidableEq

/-- `handleCommand` of the ESP8266 switch: the if/else ladder on
`doc["command"]`.  Every branch falls through to the trailing
`saveStateToEEPROM()` call, except `restart`, whose `ESP.restart()`
never returns. -/
def handleCommand (doc : JsonDoc) (st : SwitchState) : WCmdResult :=
  if doc.command = "set_power" then
    let st := { st with power := doc.power }
    { state := st, pubs := [WPub.stateUpdate st.power],
      saved := some (saveStateToEEPROM st), restarted := false }
  else if doc.command = "toggle" then
    let st := { st with power := !st.power }
    { state := st, pubs := [WPub.stateUpdate st.power],
      saved := some (saveStateToEEPROM st), restarted := false }
  else if doc.command = "get_status" then
    { state := st, pubs := [WPub.statusSnapshot, WPub.stateUpdate st.power],
      saved := some (saveStateToEEPROM st), restarted := false }
  else if doc.command = "restart" then
    { state := st, pubs := [WPub.onlineStatus false],
      saved := none, restarted := true }
  else
    { state := st, pubs := [],
      saved := some (saveStateToEEPROM st), restarted := false }

/-- The argument list of the switch's `mqttClient.connect` call:
identical will registration to the smart light. -/
def mqttConnectArgs (deviceId : String) : MqttConnectArgs :=
  { clientId := deviceId, user := "", password := "",
    will := some { topic := SmartLight.TOPIC_ONLINE deviceId,
                   message := offlineWillMessage, qos := 1, retained := true } }

end Switch

namespace Gateway

/-- The gateway's fixed device identity (the only firmware with a
hard-coded id rather than a MAC-derived one). -/
def DEVICE_ID : String := "arduino_gateway_001"

/-- The argument list of the gateway's `mqttClient.connect` call:
`mqttClient.connect(DEVICE_ID.c_str(), MQTT_USER, MQTT_PASSWORD)` —
only client id and credentials; no will parameters are passed. -/
def mqttConnectArgs : MqttConnectArgs :=
  { clientId := DEVICE_ID, user := "", password := "", will := none }

end Gateway

/-- A valid smart-light device state: every persisted field within its
documented range (brightness 0..100, color channels 0..255). -/
abbrev SmartLight.validState (st : SmartLight.DeviceState) : Prop :=
  0 ≤ st.brightness ∧ st.brightness ≤ 100 ∧
  0 ≤ st.color_r ∧ st.color_r ≤ 255 ∧
  0 ≤ st.color_g ∧ st.color_g ≤ 255 ∧
  0 ≤ st.color_b ∧ st.color_b ≤ 255

/-- A command payload longer than the fixed 512-byte document bound:
600 bytes of leading whitespace followed by a 20-byte toggle command.
JSON whitespace is insignificant, so the document itself is tiny. -/
def oversizedTogglePayload : String :=
  String.mk (List.replicate 600 ' ') ++ "\x7b\"command\":\"toggle\"\x7d"

/-- A parse capability recording the behavior of the external
ArduinoJson `deserializeJson` (an external collaborator, not part of
the repository) on the padded payload above: leading whitespace is
skipped and a document is accepted whenever it fits the fixed 512-byte
pool, regardless of the input string's length, so the padded toggle
command parses successfully; other inputs report a deserialization
error here. -/
def paddedToggleParse (s : String) : Except String JsonDoc :=
  if s = oversizedTogglePayload then Except.ok { command := "toggle" }
  else Except.error "InvalidInput"

/-- C1 (counterexample): the Arduino Uno gateway's session connect call
passes no last-will at all, so the claim that every one of the four
firmwares registers the last-will in the connect call is false. -/
theorem C1_gateway_connect_has_no_will :
    Gateway.mqttConnectArgs.will = none := rfl

/-- C1 (amended): in the three WiFi firmwares (smart light, sensor
node, switch) the session connect call itself carries the last-will
targeting the device's online topic with the offline payload, QoS 1
and retained — hence registered before the connect call completes —
while the Arduino Uno gateway's connect call registers no last-will. -/
theorem C1_wifi_connects_register_will (deviceId : String) :
    (SmartLight.mqttConnectArgs deviceId).will =
      some { topic := SmartLight.TOPIC_ONLINE deviceId,
             message := offlineWillMessage, qos := 1, retained := true } ∧
    (SensorNode.mqttConnectArgs deviceId).will =
      some { topic := SmartLight.TOPIC_ONLINE deviceId,
             message := offlineWillMessage, qos := 1, retained := true } ∧
    (Switch.mqttConnectArgs deviceId).will =
      some { topic := SmartLight.TOPIC_ONLINE deviceId,
             message := offlineWillMessage, qos := 1, retained := true } ∧
    Gateway.mqttConnectArgs.will = none :=
  ⟨rfl, rfl, rfl, rfl⟩

/-- C2 (counterexample): an `update` command received while a job is
already in progress is not rejected — it overwrites the stored OTA
URL, a state change. -/
theorem C2_update_while_in_progress_changes_state :
    (SmartLight.handleOTACommand { action := "update", url := "http://host/b.bin" }
        { device := {}, otaInProgress := true, otaUrl := "http://host/a.bin" }).sys.otaUrl
      = "http://host/b.bin" ∧
    "http://host/b.bin" ≠ "http://host/a.bin" :=
  ⟨rfl, by decide⟩

/-- C2 (amended): an OTA `update` command received while a job is
already in progress is not rejected: `handleOTACommand` unconditionally
overwrites the stored OTA URL with the new URL and leaves the
in-progress flag set (the device state proper is untouched). -/
theorem C2_update_overwrites_in_progress_job (url : String)
    (sys : SmartLight.SysState) (hprog : sys.otaInProgress = true) :
    (SmartLight.handleOTACommand { action := "update", url := url } sys).sys.otaUrl = url ∧
    (SmartLight.handleOTACommand { action := "update", url := url } sys).sys.otaInProgress = true ∧
    (SmartLight.handleOTACommand { action := "update", url := url } sys).sys.device = sys.device :=
  ⟨rfl, rfl, rfl⟩

/-- C2 (witness). -/
theorem C2_update_overwrites_in_progress_job_witness :
    (SmartLight.handleOTACommand { action := "update", url := "http://host/new.bin" }
        { device := {}, otaInProgress := true, otaUrl := "http://host/old.bin" }).sys.otaUrl
      = "http://host/new.bin" ∧
    (SmartLight.handleOTACommand { action := "update", url := "http://host/new.bin" }
        { device := {}, otaInProgress := true, otaUrl := "http://host/old.bin" }).sys.otaInProgress
      = true ∧
    (SmartLight.handleOTACommand { action := "update", url := "http://host/new.bin" }
        { device := {}, otaInProgress := true, otaUrl := "http://host/old.bin" }).sys.device
      = ({} : SmartLight.DeviceState) :=
  C2_update_overwrites_in_progress_job "http://host/new.bin"
    { device := {}, otaInProgress := true, otaUrl := "http://host/old.bin" } rfl

set_option maxRecDepth 20000 in
/-- C3 (counterexample): a payload longer than the fixed 512-byte
bound (620 bytes: leading whitespace plus a toggle command) is not
rejected before parsing — under the library's real acceptance of it,
`mqttCallback` dispatches it and the device state changes (power flips
from false to true). -/
theorem C3_oversized_payload_parsed_and_mutates :
    512 < oversizedTogglePayload.length ∧
    (SmartLight.mqttCallback paddedToggleParse "dev"
        (SmartLight.TOPIC_COMMAND "dev") oversizedTogglePayload {}).sys.device.power = true ∧
    (SmartLight.mqttCallback paddedToggleParse "dev"
        (SmartLight.TOPIC_COMMAND "dev") oversizedTogglePayload {}).outcome =
      SmartLight.CbOutcome.dispatched ∧
    ({} : SmartLight.SysState).device.power = false := by
  refine ⟨by decide, rfl, rfl, rfl⟩

/-- C3 (amended): the callback performs no size gating: it attempts the
parse on every payload, its behavior depends only on the parse result
(never on payload length), and a payload whose parse fails is dropped
with no state change and a generic parse-failure outcome — there is no
PayloadTooLarge rejection prior to parsing. -/
theorem C3_parse_always_attempted :
    (∀ (parse : String → Except String JsonDoc) (deviceId topic message : String)
        (sys : SmartLight.SysState) (e : String),
        parse message = Except.error e →
          (SmartLight.mqttCallback parse deviceId topic message sys).sys = sys ∧
          (SmartLight.mqttCallback parse deviceId topic message sys).outcome =
            SmartLight.CbOutcome.parseFailed e) ∧
    (∀ (parse : String → Except String JsonDoc) (deviceId topic m1 m2 : String)
        (sys : SmartLight.SysState),
        parse m1 = parse m2 →
          SmartLight.mqttCallback parse deviceId topic m1 sys =
            SmartLight.mqttCallback parse deviceId topic m2 sys) := by
  constructor
  · intro parse deviceId topic message sys e h
    simp [SmartLight.mqttCallback, h]
  · intro parse deviceId topic m1 m2 sys h
    simp only [SmartLight.mqttCallback, h]

/-- C3 (witness). -/
theorem C3_parse_always_attempted_witness :
    (SmartLight.mqttCallback (fun _ => Except.error "NoMemory") "dev"
        (SmartLight.TOPIC_COMMAND "dev") oversizedTogglePayload {}).sys =
      ({} : SmartLight.SysState) ∧
    (SmartLight.mqttCallback (fun _ => Except.error "NoMemory") "dev"
        (SmartLight.TOPIC_COMMAND "dev") oversizedTogglePayload {}).outcome =
      SmartLight.CbOutcome.parseFailed "NoMemory" :=
  C3_parse_always_attempted.1 (fun _ => Except.error "NoMemory") "dev"
    (SmartLight.TOPIC_COMMAND "dev") oversizedTogglePayload {} "NoMemory" rfl

/-- C4: for every `set_brightness` command whose brightness parameter
is an integer outside 0..100, the stored brightness after handling is
clamped into 0..100 and the state record is persisted (written and
committed) to EEPROM. -/
theorem C4_set_brightness_clamps_and_persists (doc : JsonDoc)
    (st : SmartLight.DeviceState) (hc : doc.command = "set_brightness")
    (hout : doc.brightness < 0 ∨ 100 < doc.brightness) :
    0 ≤ (SmartLight.handleCommand doc st).state.brightness ∧
    (SmartLight.handleCommand doc st).state.brightness ≤ 100 ∧
    (SmartLight.handleCommand doc st).saved =
      some (SmartLight.saveStateToEEPROM (SmartLight.handleCommand doc st).state) := by
  simp only [SmartLight.handleCommand, hc]
  norm_num
  split_ifs <;> simp_all

/-- C4 (witness). -/
theorem C4_set_brightness_clamps_and_persists_witness :
    (0 ≤ (SmartLight.handleCommand { command := "set_brightness", brightness := 150 }
        {}).state.brightness ∧
      (SmartLight.handleCommand { command := "set_brightness", brightness := 150 }
        {}).state.brightness ≤ 100 ∧
      (SmartLight.handleCommand { command := "set_brightness", brightness := 150 }
        {}).saved =
        some (SmartLight.saveStateToEEPROM
          (SmartLight.handleCommand { command := "set_brightness", brightness := 150 }
            {}).state)) :=
  C4_set_brightness_clamps_and_persists
    { command := "set_brightness", brightness := 150 } {} rfl (by decide)

/-- Helper: when the record's bytes are within the clamp bounds, the
post-load clamps of `loadStateFromEEPROM` are all no-ops. -/
theorem SmartLight.loadStateFromEEPROM_of_bounds (rec : SmartLight.EEPROMRecord)
    (st0 : SmartLight.DeviceState) (h1 : rec.b1 ≤ 100) (h2 : rec.b2 ≤ 255)
    (h3 : rec.b3 ≤ 255) (h4 : rec.b4 ≤ 255) :
    SmartLight.loadStateFromEEPROM rec st0 =
      { st0 with power := rec.b0 == 1, brightness := (rec.b1 : Int),
                 color_r := (rec.b2 : Int), color_g := (rec.b3 : Int),
                 color_b := (rec.b4 : Int) } := by
  have hb : ¬((rec.b1 : Int) > 100) := by omega
  have hr : ¬((rec.b2 : Int) > 255) := by omega
  have hg : ¬((rec.b3 : Int) > 255) := by omega
  have hv : ¬((rec.b4 : Int) > 255) := by omega
  simp only [SmartLight.loadStateFromEEPROM]
  rw [if_neg hb, if_neg hr, if_neg hg, if_neg hv]

/-- C5: for every valid device state (each persisted field in its
documented range), persisting, restarting the process (a fresh
default-initialized struct) and restoring yields the persisted record
identically: all five persisted fields of the smart light, and the
power bit of the switch, round-trip unchanged. -/
theorem C5_persist_restore_roundtrip (st : SmartLight.DeviceState)
    (w : Switch.SwitchState) (h : SmartLight.validState st) :
    ((SmartLight.loadStateFromEEPROM (SmartLight.saveStateToEEPROM st) {}).power = st.power ∧
     (SmartLight.loadStateFromEEPROM (SmartLight.saveStateToEEPROM st) {}).brightness = st.brightness ∧
     (SmartLight.loadStateFromEEPROM (SmartLight.saveStateToEEPROM st) {}).color_r = st.color_r ∧
     (SmartLight.loadStateFromEEPROM (SmartLight.saveStateToEEPROM st) {}).color_g = st.color_g ∧
     (SmartLight.loadStateFromEEPROM (SmartLight.saveStateToEEPROM st) {}).color_b = st.color_b) ∧
    (Switch.loadStateFromEEPROM (Switch.saveStateToEEPROM w) {}).power = w.power := by
  obtain ⟨hb0, hb1, hr0, hr1, hg0, hg1, hv0, hv1⟩ := h
  have eb : SmartLight.saveStateToEEPROM st =
      { b0 := if st.power then 1 else 0, b1 := byteOfInt st.brightness,
        b2 := byteOfInt st.color_r, b3 := byteOfInt st.color_g,
        b4 := byteOfInt st.color_b } := rfl
  constructor
  · rw [SmartLight.loadStateFromEEPROM_of_bounds]
    · refine ⟨?_, ?_, ?_, ?_, ?_⟩
      · rw [eb]
        cases st.power <;> rfl
      · show ((byteOfInt st.brightness : Nat) : Int) = st.brightness
        unfold byteOfInt
        omega
      · show ((byteOfInt st.color_r : Nat) : Int) = st.color_r
        unfold byteOfInt
        omega
      · show ((byteOfInt st.color_g : Nat) : Int) = st.color_g
        unfold byteOfInt
        omega
      · show ((byteOfInt st.color_b : Nat) : Int) = st.color_b
        unfold byteOfInt
        omega
    · show byteOfInt st.brightness ≤ 100
      unfold byteOfInt
      omega
    · show byteOfInt st.color_r ≤ 255
      unfold byteOfInt
      omega
    · show byteOfInt st.color_g ≤ 255
      unfold byteOfInt
      omega
    · show byteOfInt st.color_b ≤ 255
      unfold byteOfInt
      omega
  · simp only [Switch.loadStateFromEEPROM, Switch.saveStateToEEPROM]
    cases hp : w.power <;> simp

/-- C5 (witness). -/
theorem C5_persist_restore_roundtrip_witness :
    ((SmartLight.loadStateFromEEPROM
        (SmartLight.saveStateToEEPROM
          { power := true, brightness := 55, color_r := 7, color_g := 8, color_b := 9 }) {}).power
        = true ∧
      (SmartLight.loadStateFromEEPROM
        (SmartLight.saveStateToEEPROM
          { power := true, brightness := 55, color_r := 7, color_g := 8, color_b := 9 }) {}).brightness
        = 55 ∧
      (SmartLight.loadStateFromEEPROM
        (SmartLight.saveStateToEEPROM
          { power := true, brightness := 55, color_r := 7, color_g := 8, color_b := 9 }) {}).color_r
        = 7 ∧
      (SmartLight.loadStateFromEEPROM
        (SmartLight.saveStateToEEPROM
          { power := true, brightness := 55, color_r := 7, color_g := 8, color_b := 9 }) {}).color_g
        = 8 ∧
      (SmartLight.loadStateFromEEPROM
        (SmartLight.saveStateToEEPROM
          { power := true, brightness := 55, color_r := 7, color_g := 8, color_b := 9 }) {}).color_b
        = 9) ∧
    (Switch.loadStateFromEEPROM (Switch.saveStateToEEPROM { power := true }) {}).power = true :=
  C5_persist_restore_roundtrip
    { power := true, brightness := 55, color_r := 7, color_g := 8, color_b := 9 }
    { power := true } (by decide)

/-- C6: a well-formed command document whose command string is none of
the recognized commands mutates no device state, publishes nothing (so
no error is surfaced), and does not restart — on the smart light and
on the sensor node. -/
theorem C6_unknown_command_is_noop (doc : JsonDoc) (st : SmartLight.DeviceState)
    (rd : SensorNode.DriverReadings) (nst : SensorNode.SensorState)
    (h1 : doc.command ≠ "set_power") (h2 : doc.command ≠ "set_brightness")
    (h3 : doc.command ≠ "set_color") (h4 : doc.command ≠ "toggle")
    (h5 : doc.command ≠ "get_status") (h6 : doc.command ≠ "restart")
    (h7 : doc.command ≠ "get_sensors") :
    ((SmartLight.handleCommand doc st).state = st ∧
     (SmartLight.handleCommand doc st).pubs = [] ∧
     (SmartLight.handleCommand doc st).restarted = false) ∧
    ((SensorNode.handleCommand rd doc nst).state = nst ∧
     (SensorNode.handleCommand rd doc nst).pubs = [] ∧
     (SensorNode.handleCommand rd doc nst).restarted = false) := by
  refine ⟨?_, ?_⟩ <;>
    simp [SmartLight.handleCommand, SensorNode.handleCommand,
      h1, h2, h3, h4, h5, h6, h7]

/-- C6 (witness). -/
theorem C6_unknown_command_is_noop_witness :
    ((SmartLight.handleCommand { command := "blink" } {}).state =
        ({} : SmartLight.DeviceState) ∧
     (SmartLight.handleCommand { command := "blink" } {}).pubs = [] ∧
     (SmartLight.handleCommand { command := "blink" } {}).restarted = false) ∧
    ((SensorNode.handleCommand
        { dhtTemperature := none, dhtHumidity := none, bme := none,
          lightLevel := 0, motionDetected := false } { command := "blink" } {}).state =
        ({} : SensorNode.SensorState) ∧
     (SensorNode.handleCommand
        { dhtTemperature := none, dhtHumidity := none, bme := none,
          lightLevel := 0, motionDetected := false } { command := "blink" } {}).pubs = [] ∧
     (SensorNode.handleCommand
        { dhtTemperature := none, dhtHumidity := none, bme := none,
          lightLevel := 0, motionDetected := false } { command := "blink" } {}).restarted =
        false) :=
  C6_unknown_command_is_noop { command := "blink" } {}
    { dhtTemperature := none, dhtHumidity := none, bme := none,
      lightLevel := 0, motionDetected := false } {}
    (by decide) (by decide) (by decide) (by decide) (by decide) (by decide) (by decide)

/-- C7: when the tick counter wraps across its maximum (now is
numerically below last_fire_time) and the elapsed time computed by
wraparound-safe unsigned subtraction exceeds the interval, the task
fires and last_fire_time is set to now; any immediately following
tick whose elapsed time does not exceed the interval (in particular a
re-tick at the same instant) does not fire again — exactly one firing
at the wraparound boundary. -/
theorem C7_wraparound_task_fires_exactly_once (interval lastFire now : Nat)
    (h1 : lastFire < UINT32_MOD) (h2 : now < UINT32_MOD) (h3 : now < lastFire)
    (h4 : interval < usub32 now lastFire) :
    schedTick interval lastFire now = (true, now) ∧
    ∀ now2, usub32 now2 now ≤ interval → schedTick interval now now2 = (false, now) := by
  constructor
  · simp [schedTick, h4]
  · intro now2 hle
    simp [schedTick, Nat.not_lt.mpr hle]

/-- C7 (witness): the 30-second heartbeat task with last_fire_time 500
ticks before the 2^32 wraparound and now 29600 ticks after it. -/
theorem C7_wraparound_task_fires_exactly_once_witness :
    schedTick 30000 4294966796 29600 = (true, 29600) ∧
    schedTick 30000 29600 29600 = (false, 29600) := by
  have h := C7_wraparound_task_fires_exactly_once 30000 4294966796 29600
    (by decide) (by decide) (by decide) (by decide)
  exact ⟨h.1, h.2 29600 (by decide)⟩

/-- C8: an OTA run with a nonempty URL publishes exactly one terminal
status after the updating status — mapping the transport outcome to
failed (with the transport's error string), no_update, or success —
resets the job (in-progress flag cleared, URL emptied), and performs
the delayed process restart exactly when the outcome was success. -/
theorem C8_ota_terminal_publish_reset_and_restart (ret : SmartLight.HttpUpdateResult)
    (sys : SmartLight.SysState) (h : sys.otaUrl ≠ "") :
    (SmartLight.performOTAUpdate ret sys).sys.otaInProgress = false ∧
    (SmartLight.performOTAUpdate ret sys).sys.otaUrl = "" ∧
    (∀ e, ret = SmartLight.HttpUpdateResult.failed e →
      (SmartLight.performOTAUpdate ret sys).pubs =
        [SmartLight.Publication.otaStatus "updating" (some 0) none,
         SmartLight.Publication.otaStatus "failed" (some 0) (some e)]) ∧
    (ret = SmartLight.HttpUpdateResult.noUpdates →
      (SmartLight.performOTAUpdate ret sys).pubs =
        [SmartLight.Publication.otaStatus "updating" (some 0) none,
         SmartLight.Publication.otaStatus "no_update" (some 0) none]) ∧
    (ret = SmartLight.HttpUpdateResult.ok →
      (SmartLight.performOTAUpdate ret sys).pubs =
        [SmartLight.Publication.otaStatus "updating" (some 0) none,
         SmartLight.Publication.otaStatus "success" (some 0) none]) ∧
    (ret = SmartLight.HttpUpdateResult.ok →
      (SmartLight.performOTAUpdate ret sys).restarted = true ∧
      (SmartLight.performOTAUpdate ret sys).delayedBeforeRestart = true) ∧
    (ret ≠ SmartLight.HttpUpdateResult.ok →
      (SmartLight.performOTAUpdate ret sys).restarted = false) := by
  cases ret <;> simp [SmartLight.performOTAUpdate, h]

/-- C8 (witness): a failed transfer with a concrete error string. -/
theorem C8_ota_terminal_publish_reset_and_restart_witness :
    (SmartLight.performOTAUpdate (SmartLight.HttpUpdateResult.failed "connection refused")
        { device := {}, otaInProgress := true, otaUrl := "http://host/fw.bin" }).sys.otaInProgress
      = false ∧
    (SmartLight.performOTAUpdate (SmartLight.HttpUpdateResult.failed "connection refused")
        { device := {}, otaInProgress := true, otaUrl := "http://host/fw.bin" }).sys.otaUrl
      = "" ∧
    (SmartLight.performOTAUpdate (SmartLight.HttpUpdateResult.failed "connection refused")
        { device := {}, otaInProgress := true, otaUrl := "http://host/fw.bin" }).pubs =
      [SmartLight.Publication.otaStatus "updating" (some 0) none,
       SmartLight.Publication.otaStatus "failed" (some 0) (some "connection refused")] ∧
    (SmartLight.performOTAUpdate (SmartLight.HttpUpdateResult.failed "connection refused")
        { device := {}, otaInProgress := true, otaUrl := "http://host/fw.bin" }).restarted
      = false := by
  have h := C8_ota_terminal_publish_reset_and_restart
    (SmartLight.HttpUpdateResult.failed "connection refused")
    { device := {}, otaInProgress := true, otaUrl := "http://host/fw.bin" } (by decide)
  exact ⟨h.1, h.2.1, h.2.2.1 "connection refused" rfl, h.2.2.2.2.2.2 (by decide)⟩

/-- C9 (counterexample): the restart command parses as a JSON object
yet writes nothing to EEPROM — `ESP.restart()` is reached before the
trailing save on both the smart light and the switch — refuting the
claim for every command-topic message. -/
theorem C9_restart_command_writes_nothing :
    (SmartLight.handleCommand { command := "restart" } {}).saved = none ∧
    (SmartLight.handleCommand { command := "restart" } {}).restarted = true ∧
    (Switch.handleCommand { command := "restart" } {}).saved = none ∧
    (Switch.handleCommand { command := "restart" } {}).restarted = true :=
  ⟨rfl, rfl, rfl, rfl⟩

/-- C9 (amended): every command-topic message that parses as a JSON
object and whose command is not `restart` — including unknown commands
and non-mutating commands such as `get_status` — makes the smart light
and the switch write the full state record to EEPROM and commit after
handling, even when no state field changed; `restart` alone restarts
before the save is reached. -/
theorem C9_state_saved_after_every_nonrestart_command (doc : JsonDoc)
    (st : SmartLight.DeviceState) (w : Switch.SwitchState)
    (h : doc.command ≠ "restart") :
    (SmartLight.handleCommand doc st).saved =
      some (SmartLight.saveStateToEEPROM (SmartLight.handleCommand doc st).state) ∧
    (Switch.handleCommand doc w).saved =
      some (Switch.saveStateToEEPROM (Switch.handleCommand doc w).state) := by
  constructor <;>
  · simp only [SmartLight.handleCommand, Switch.handleCommand]
    split_ifs <;> rfl

/-- C9 (witness): the non-mutating `get_status` command still saves. -/
theorem C9_state_saved_after_every_nonrestart_command_witness :
    (SmartLight.handleCommand { command := "get_status" } {}).saved =
      some (SmartLight.saveStateToEEPROM
        (SmartLight.handleCommand { command := "get_status" } {}).state) ∧
    (Switch.handleCommand { command := "get_status" } {}).saved =
      some (Switch.saveStateToEEPROM
        (Switch.handleCommand { command := "get_status" } {}).state) :=
  C9_state_saved_after_every_nonrestart_command { command := "get_status" } {} {}
    (by decide)

/-- C10: `set_color` stores the r, g, b parameters into the device
state with no range validation; concretely, a red channel of 300 is
kept as 300 in memory, is truncated modulo 256 to the byte 44 by the
EEPROM persist, and restoring therefore yields 44, different from the
in-memory value that was persisted. -/
theorem C10_set_color_unvalidated_and_truncated_on_persist
    (doc : JsonDoc) (st : SmartLight.DeviceState) (hc : doc.command = "set_color") :
    ((SmartLight.handleCommand doc st).state.color_r = doc.r ∧
     (SmartLight.handleCommand doc st).state.color_g = doc.g ∧
     (SmartLight.handleCommand doc st).state.color_b = doc.b) ∧
    ((SmartLight.handleCommand { command := "set_color", r := 300, g := 80, b := 40 }
        {}).state.color_r = 300 ∧
     (SmartLight.saveStateToEEPROM
        (SmartLight.handleCommand { command := "set_color", r := 300, g := 80, b := 40 }
          {}).state).b2 = 44 ∧
     (SmartLight.loadStateFromEEPROM
        (SmartLight.saveStateToEEPROM
          (SmartLight.handleCommand { command := "set_color", r := 300, g := 80, b := 40 }
            {}).state) {}).color_r = 44 ∧
     (44 : Int) ≠ 300) := by
  constructor
  · simp [SmartLight.handleCommand, hc]
  · exact ⟨rfl, rfl, rfl, by decide⟩

/-- C10 (witness). -/
theorem C10_set_color_unvalidated_and_truncated_on_persist_witness :
    (SmartLight.handleCommand { command := "set_color", r := 300, g := 80, b := 40 }
        {}).state.color_r = 300 ∧
    (SmartLight.handleCommand { command := "set_color", r := 300, g := 80, b := 40 }
        {}).state.color_g = 80 ∧
    (SmartLight.handleCommand { command := "set_color", r := 300, g := 80, b := 40 }
        {}).state.color_b = 40 :=
  (C10_set_color_unvalidated_and_truncated_on_persist
    { command := "set_color", r := 300, g := 80, b := 40 } {} rfl).1
